import Mathlib

/-!
Verification of the puppeteer-monitor repository: a shallow embedding of the
event-capture handlers (src/monitor/page-monitoring.mjs), the monitoring
wrapper (src/monitor/shared/tab-switching.mjs), the dump actions
(src/logging/dump.mjs), the cleanup and error-isolation logic
(src/monitor/shared/cleanup.mjs), the user-page filter
(src/monitor/shared/user-page-filter.mjs), the open-mode connect retry loop
(src/monitor/open-mode.mjs) and the WSL port-proxy utilities
(src/os/wsl/port-proxy.mjs), together with theorems about the captured
behaviour.

JavaScript strings are modelled by Lean String; the JS string helpers
(includes, startsWith, slice, padStart, padEnd, toUpperCase) are translated
below over the character list of the string.  Machine time (Date.now) and
timestamps are universally quantified inputs.
-/

namespace PuppeteerMonitor

/-- Leading-segment test on character lists: translation target for the JS
string method startsWith. -/
def strHasPre : List Char → List Char → Bool
  | [], _ => true
  | _ :: _, [] => false
  | a :: ps, b :: ss => a == b && strHasPre ps ss

/-- Occurrence test on character lists: translation target for the JS string
methods includes and the regex alternation tests used in the sources. -/
def strHasSub : List Char → List Char → Bool
  | p, [] => strHasPre p []
  | p, b :: ss => strHasPre p (b :: ss) || strHasSub p ss

/-- JS s.includes(pat). -/
def jsIncludes (s pat : String) : Bool := strHasSub pat.data s.data

/-- JS s.startsWith(pat). -/
def jsStartsWith (s pat : String) : Bool := strHasPre pat.data s.data

/-- JS s.slice(0, n) and s.substring(0, n). -/
def jsSlice (s : String) (n : Nat) : String := String.mk (s.data.take n)

/-- JS s.toUpperCase() for the ASCII identifiers used in the sources. -/
def jsToUpper (s : String) : String := String.mk (s.data.map Char.toUpper)

/-- A run of n spaces. -/
def padBlanks (n : Nat) : String := String.mk (List.replicate n ' ')

/-- JS s.padEnd(n). -/
def padEnd (s : String) (n : Nat) : String := s ++ padBlanks (n - s.length)

/-- JS s.padStart(n). -/
def padStart (s : String) (n : Nat) : String := padBlanks (n - s.length) ++ s

/-- JS template rendering of a possibly undefined value, as in the template
string containing failure?.errorText. -/
def jsOptText : Option String → String
  | some s => s
  | none => "undefined"

/-- The proposition that p occurs as a contiguous substring of s. -/
def SubstrOf (p s : String) : Prop := ∃ a b, s = a ++ p ++ b

/-- HMR_PATTERNS from src/logging/constants.mjs. -/
def HMR_PATTERNS : List String :=
  ["[vite] hot updated", "[vite] page reloaded", "[vite] connected"]

/-- DEFAULT_IGNORE_PATTERNS from src/logging/constants.mjs. -/
def DEFAULT_IGNORE_PATTERNS : List String :=
  ["IndexedDBStorage", "BackendSync", "heartbeat", "Sending ping", "Received pong"]

/-- Response metadata stored by updateRequestDetail on completion
(src/monitor/page-monitoring.mjs, onResponse). -/
structure ResponseInfo where
  status : Nat
  statusText : String
  headers : List (String × String)
  body : Option String
  duration : Nat
deriving Repr, DecidableEq

/-- Failure metadata stored by updateRequestDetail on a failed request
(src/monitor/page-monitoring.mjs, onRequestFailed). -/
structure FailureInfo where
  errorText : Option String
  duration : Nat
deriving Repr, DecidableEq

/-- A per-request detail record, with the fields written by onRequest and
the terminal patch written by onResponse or onRequestFailed. -/
structure RequestDetail where
  id : Nat
  timestamp : String
  method : String
  resourceType : String
  url : String
  reqHeaders : List (String × String)
  postData : Option String
  response : Option ResponseInfo
  failed : Option FailureInfo
deriving Repr, DecidableEq

/-- Modelled from the spec: the LogBuffer class (src/logging/LogBuffer.mjs is
not among the provided sources; only its callers are).  Per section 3 of the
spec a Buffer holds in-memory ordered collections of LogEntry and
RequestDetail records: two independent append-only text streams (console,
network), a keyed RequestDetail store, and the monotonic session-local
request-id counter. -/
structure LogBuffer where
  consoleBuffer : List String
  networkBuffer : List String
  requestDetails : List (Nat × RequestDetail)
  requestIdCounter : Nat
  ignorePatterns : List String
deriving Repr, DecidableEq

/-- Modelled from the spec: logConsole appends one line to the console
stream (emission order preserved). -/
def LogBuffer.logConsole (lb : LogBuffer) (line : String) : LogBuffer :=
  { lb with consoleBuffer := lb.consoleBuffer ++ [line] }

/-- Modelled from the spec: logNetwork appends one line to the network
stream (emission order preserved). -/
def LogBuffer.logNetwork (lb : LogBuffer) (line : String) : LogBuffer :=
  { lb with networkBuffer := lb.networkBuffer ++ [line] }

/-- Modelled from the spec: nextRequestId allocates the next monotonic
session-local request id. -/
def LogBuffer.nextRequestId (lb : LogBuffer) : Nat × LogBuffer :=
  (lb.requestIdCounter + 1, { lb with requestIdCounter := lb.requestIdCounter + 1 })

/-- Modelled from the spec: saveRequestDetail persists a RequestDetail under
its id (keyed store, set semantics). -/
def LogBuffer.saveRequestDetail (lb : LogBuffer) (id : Nat) (d : RequestDetail) : LogBuffer :=
  { lb with requestDetails := (id, d) :: lb.requestDetails.filter (fun e => e.1 != id) }

/-- Modelled from the spec: updateRequestDetail with a response patch merges
the response metadata into the stored record with that id. -/
def LogBuffer.updateDetailResponse (lb : LogBuffer) (id : Nat) (r : ResponseInfo) : LogBuffer :=
  let upd := lb.requestDetails.map
    (fun e => if e.1 == id then (e.1, { e.2 with response := some r }) else e)
  { lb with requestDetails := upd }

/-- Modelled from the spec: updateRequestDetail with a failed patch merges
the failure metadata into the stored record with that id. -/
def LogBuffer.updateDetailFailed (lb : LogBuffer) (id : Nat) (f : FailureInfo) : LogBuffer :=
  let upd := lb.requestDetails.map
    (fun e => if e.1 == id then (e.1, { e.2 with failed := some f }) else e)
  { lb with requestDetails := upd }

/-- Modelled from the spec: clearConsoleBuffer empties the console stream. -/
def LogBuffer.clearConsoleBuffer (lb : LogBuffer) : LogBuffer :=
  { lb with consoleBuffer := [] }

/-- Modelled from the spec: a visual separator line carrying a label. -/
def separatorLine (label : String) : String :=
  "========== " ++ label ++ " =========="

/-- Modelled from the spec: printConsoleSeparator emits a marker line into
the console stream. -/
def LogBuffer.printConsoleSeparator (lb : LogBuffer) (label : String) : LogBuffer :=
  lb.logConsole (separatorLine label)

/-- Modelled from the spec: printNetworkSeparator emits a marker line into
the network stream. -/
def LogBuffer.printNetworkSeparator (lb : LogBuffer) (label : String) : LogBuffer :=
  lb.logNetwork (separatorLine label)

/-- Modelled from the spec: messages matching configured ignore-patterns are
dropped before buffering. -/
def LogBuffer.shouldIgnore (lb : LogBuffer) (text : String) : Bool :=
  lb.ignorePatterns.any (fun p => jsIncludes text p)

/-- Modelled from the spec: messages matching hot-reload markers. -/
def isHmrText (text : String) : Bool :=
  HMR_PATTERNS.any (fun p => jsIncludes text p)

/-- Modelled from the spec: getStats returns the current buffer counts with
no side effects. -/
def LogBuffer.getStats (lb : LogBuffer) : Nat × Nat × Nat :=
  (lb.consoleBuffer.length, lb.networkBuffer.length, lb.requestDetails.length)

/-- Modelled from the spec: clearAllBuffers drops all buffers and details
without writing anything. -/
def LogBuffer.clearAllBuffers (lb : LogBuffer) : LogBuffer :=
  { lb with consoleBuffer := [], networkBuffer := [], requestDetails := [] }

/-- The in-flight record stored in the requestData map by onRequest
(src/monitor/page-monitoring.mjs). -/
structure InFlightData where
  id : Nat
  startTime : Nat
  method : String
  resourceType : String
deriving Repr, DecidableEq

/-- A request as observed by the handlers.  rid models the in-process
identity of the emitting request object (the Map key). -/
structure PMRequest where
  rid : Nat
  url : String
  method : String
  resourceType : String
  headers : List (String × String)
  postData : Option String
deriving Repr, DecidableEq

/-- Result of awaiting response.text(): the body, or the message of the
exception the read rejected with. -/
inductive BodyRead where
  | ok (body : String)
  | err (msg : String)
deriving Repr, DecidableEq

/-- A response as observed by onResponse.  reqRid models response.request()
(none when the request object is null); bodyText models response.text(),
which can reject. -/
structure PMResponse where
  reqRid : Option Nat
  url : String
  status : Nat
  statusText : String
  headers : List (String × String)
  bodyText : BodyRead
deriving Repr, DecidableEq

/-- A failed request as observed by onRequestFailed; errorText models
request.failure()?.errorText. -/
structure PMFailedRequest where
  rid : Nat
  url : String
  errorText : Option String
deriving Repr, DecidableEq

/-- The cross-event mutable state of one monitoring session: the LogBuffer
and the identity-keyed in-flight request map. -/
structure MonitorState where
  logBuffer : LogBuffer
  requestData : List (Nat × InFlightData)
deriving Repr, DecidableEq

/-- JS object lookup headers[k] with the || fallback to the empty string. -/
def headerGet (hs : List (String × String)) (k : String) : String :=
  (List.lookup k hs).getD ""

/-- The text-likeness test of onResponse: content type includes json, text,
javascript or xml. -/
def isTextBasedContentType (ct : String) : Bool :=
  jsIncludes ct "json" || jsIncludes ct "text" || jsIncludes ct "javascript" || jsIncludes ct "xml"

/-- The response-body capture of onResponse: text-like bodies are kept,
truncated at the 100000 ceiling with the visible marker; a body read error
is recorded; any other content type is recorded as a binary placeholder. -/
def responseBodyFor (ct : String) (bodyText : BodyRead) : String :=
  if isTextBasedContentType ct then
    match bodyText with
    | BodyRead.ok b =>
        if b.length > 100000 then jsSlice b 100000 ++ "\n... [TRUNCATED]" else b
    | BodyRead.err m => "[Error reading body: " ++ m ++ "]"
  else "[Binary content: " ++ ct ++ "]"

/-- The outbound network line of onRequest. -/
def networkOutboundLine (ts : String) (id : Nat) (method rt url : String) : String :=
  ("[" ++ ts ++ "] ") ++ ("--> " ++ toString id) ++
    (" " ++ method ++ " " ++ padEnd (jsToUpper rt) 10 ++ " " ++ url)

/-- The inbound network line of onResponse (idStr is the matched id or the
????? placeholder, durStr is the duration suffix or empty). -/
def networkInboundLine (ts idStr : String) (status : Nat) (url durStr : String) : String :=
  ("[" ++ ts ++ "] ") ++ ("<-- " ++ idStr) ++
    (" " ++ padStart (toString status) 3 ++ " " ++ url ++ durStr)

/-- The network line of onRequestFailed. -/
def networkFailedLine (ts idStr url errText durStr : String) : String :=
  "[" ++ ts ++ "] [FAILED] " ++ idStr ++ " " ++ url ++ ": " ++ errText ++ durStr

/-- The console line of onRequestFailed. -/
def consoleFailedLine (ts url errText : String) : String :=
  "[" ++ ts ++ "] [FAILED] " ++ url ++ ": " ++ errText

/-- The onConsole handler (src/monitor/page-monitoring.mjs).  text is the
rendered message text after argument serialization (serialization itself is
an external effect; on its failure the handler falls back to the
preformatted event text, with the same buffering behaviour). -/
def onConsole (paused : Bool) (pageLabel ts msgType text : String)
    (st : MonitorState) : MonitorState :=
  if paused then st else
  if msgType == "clear" then
    let lb := (st.logBuffer.clearConsoleBuffer).printConsoleSeparator
      (if pageLabel == "" then "CONSOLE CLEARED - Output reset" else "CONSOLE CLEARED")
    { st with logBuffer := lb }
  else if st.logBuffer.shouldIgnore text then st
  else
    let lb := if isHmrText text then
        st.logBuffer.printConsoleSeparator "HMR UPDATE - Code change detected"
      else st.logBuffer
    let lb := lb.logConsole
      ("[" ++ ts ++ "] " ++ pageLabel ++ padEnd (jsToUpper msgType) 7 ++ " " ++ text)
    { st with logBuffer := lb }

/-- The onPageError handler. -/
def onPageError (paused : Bool) (pageLabel ts message : String)
    (st : MonitorState) : MonitorState :=
  if paused then st else
  let lb := st.logBuffer.logConsole
    ("[" ++ ts ++ "] " ++ pageLabel ++ "[PAGE ERROR] " ++ message)
  { st with logBuffer := lb }

/-- The onRequest handler: allocate the next id, record the in-flight entry
under the request identity, persist the RequestDetail, and log one outbound
network line. -/
def onRequest (paused : Bool) (ts : String) (now : Nat) (req : PMRequest)
    (st : MonitorState) : MonitorState :=
  if paused then st else
  let idlb := st.logBuffer.nextRequestId
  let rd := (req.rid, InFlightData.mk idlb.1 now req.method req.resourceType)
      :: st.requestData.filter (fun e => e.1 != req.rid)
  let lb := idlb.2.saveRequestDetail idlb.1
    { id := idlb.1, timestamp := ts, method := req.method,
      resourceType := req.resourceType, url := req.url,
      reqHeaders := req.headers, postData := req.postData,
      response := none, failed := none }
  let lb := lb.logNetwork (networkOutboundLine ts idlb.1 req.method req.resourceType req.url)
  { logBuffer := lb, requestData := rd }

/-- The onResponse handler: locate the in-flight entry by request identity;
when found, remove it, capture response metadata and body per content type,
and log one inbound line with the id; otherwise log one inbound line with
the ????? placeholder. -/
def onResponse (paused : Bool) (ts : String) (now : Nat) (resp : PMResponse)
    (st : MonitorState) : MonitorState :=
  if paused then st else
  let dataOpt := match resp.reqRid with
    | some rid => List.lookup rid st.requestData
    | none => none
  match resp.reqRid, dataOpt with
  | some rid, some d =>
    let ms := now - d.startTime
    let rd := st.requestData.filter (fun e => e.1 != rid)
    let ct := headerGet resp.headers "content-type"
    let lb := st.logBuffer.updateDetailResponse d.id
      { status := resp.status, statusText := resp.statusText,
        headers := resp.headers, body := some (responseBodyFor ct resp.bodyText),
        duration := ms }
    let lb := lb.logNetwork
      (networkInboundLine ts (toString d.id) resp.status resp.url
        (" (" ++ toString ms ++ "ms)"))
    { logBuffer := lb, requestData := rd }
  | _, _ =>
    let lb := st.logBuffer.logNetwork (networkInboundLine ts "?????" resp.status resp.url "")
    { st with logBuffer := lb }

/-- The onRequestFailed handler: locate the in-flight entry; when found,
remove it and record the failure; always log one network line; additionally
log a console failure line unless the URL includes oauth2/sign_in. -/
def onRequestFailed (paused : Bool) (tsFull tsShort : String) (now : Nat)
    (fr : PMFailedRequest) (st : MonitorState) : MonitorState :=
  if paused then st else
  let errText := jsOptText fr.errorText
  let found := List.lookup fr.rid st.requestData
  let idDurLbRd : String × String × LogBuffer × List (Nat × InFlightData) :=
    match found with
    | some d =>
      let ms := now - d.startTime
      (toString d.id, " (" ++ toString ms ++ "ms)",
        st.logBuffer.updateDetailFailed d.id { errorText := fr.errorText, duration := ms },
        st.requestData.filter (fun e => e.1 != fr.rid))
    | none => ("?????", "", st.logBuffer, st.requestData)
  let lb := idDurLbRd.2.2.1.logNetwork
    (networkFailedLine tsFull idDurLbRd.1 fr.url errText idDurLbRd.2.1)
  let lb := if jsIncludes fr.url "oauth2/sign_in" then lb
    else lb.logConsole (consoleFailedLine tsShort fr.url errText)
  { logBuffer := lb, requestData := idDurLbRd.2.2.2 }

/-- One asynchronous page event, with the external inputs (timestamps,
clock readings) it was delivered with. -/
inductive PageEvent where
  | consoleMsg (ts msgType text : String)
  | pageError (ts message : String)
  | requestStarted (ts : String) (now : Nat) (req : PMRequest)
  | responseReceived (ts : String) (now : Nat) (resp : PMResponse)
  | requestFailed (tsFull tsShort : String) (now : Nat) (fr : PMFailedRequest)
deriving Repr

/-- Dispatch one event to its handler; paused is the value of the pause
flag read at delivery time. -/
def handleEvent (paused : Bool) (pageLabel : String) (ev : PageEvent)
    (st : MonitorState) : MonitorState :=
  match ev with
  | PageEvent.consoleMsg ts t x => onConsole paused pageLabel ts t x st
  | PageEvent.pageError ts m => onPageError paused pageLabel ts m st
  | PageEvent.requestStarted ts now req => onRequest paused ts now req st
  | PageEvent.responseReceived ts now resp => onResponse paused ts now resp st
  | PageEvent.requestFailed t1 t2 now fr => onRequestFailed paused t1 t2 now fr st

/-- Process a delivered event sequence; each event carries the pause-flag
value read when its handler ran. -/
def processEvents (pageLabel : String) (evs : List (Bool × PageEvent))
    (st : MonitorState) : MonitorState :=
  evs.foldl (fun s be => handleEvent be.1 pageLabel be.2 s) st

/-! ## Session / tab lifecycle (src/monitor/shared/tab-switching.mjs,
createSetupPageMonitoring, and setActivePageCleanup of
src/monitor/page-monitoring.mjs) -/

/-- A micro-event of the listener lifecycle: attaching the five listeners to
a page, or removing them (and clearing the in-flight map). -/
inductive AttachEvent where
  | attach (page : Nat)
  | detach (page : Nat)
deriving Repr, DecidableEq

/-- The wrapper state: the emitted micro-event trace, and the registered
cleanup callback for the currently monitored page (none after cleanup). -/
structure SessionMonitor where
  trace : List AttachEvent
  activeCleanup : Option Nat
deriving Repr, DecidableEq

/-- cleanupActivePageListeners: run and clear the stored cleanup callback,
which removes all five listeners from the previous page. -/
def SessionMonitor.cleanupActivePageListeners (s : SessionMonitor) : SessionMonitor :=
  match s.activeCleanup with
  | some p => { trace := s.trace ++ [AttachEvent.detach p], activeCleanup := none }
  | none => s

/-- setupPageMonitoring of the wrapper: remove listeners from the previous
page first, then attach to the new page and store its cleanup callback. -/
def SessionMonitor.setupPageMonitoring (s : SessionMonitor) (page : Nat) : SessionMonitor :=
  let s1 := s.cleanupActivePageListeners
  { trace := s1.trace ++ [AttachEvent.attach page], activeCleanup := some page }

/-- The wrapper operations a session can perform. -/
inductive SessionOp where
  | setup (page : Nat)
  | cleanup
deriving Repr, DecidableEq

/-- Run one wrapper operation. -/
def stepSession (s : SessionMonitor) (op : SessionOp) : SessionMonitor :=
  match op with
  | SessionOp.setup p => s.setupPageMonitoring p
  | SessionOp.cleanup => s.cleanupActivePageListeners

/-- Run a sequence of wrapper operations from the initial state. -/
def runSessionOps (ops : List SessionOp) : SessionMonitor :=
  ops.foldl stepSession { trace := [], activeCleanup := none }

/-- Contribution of one micro-event to the attach count. -/
def evDelta : AttachEvent → Int
  | AttachEvent.attach _ => 1
  | AttachEvent.detach _ => -1

/-- Attach-count minus detach-count of a micro-event trace. -/
def attachBalance (tr : List AttachEvent) : Int :=
  (tr.map evDelta).sum

/-! ## Dump actions (src/logging/dump.mjs) -/

/-- One artifact a dump writes: the console log file, the network log file,
a per-id request-detail file, or one of the three optional collaborators. -/
inductive ArtifactKind where
  | consoleLog
  | networkLog
  | detailFile (id : Nat)
  | cookies
  | dom
  | screenshot
deriving Repr, DecidableEq

/-- Environment oracle: which underlying writes succeed.  The three direct
fs.writeFileSync targets and each collaborator can fail independently. -/
structure WriteOracle where
  consoleOk : Bool
  networkOk : Bool
  detailOk : Nat → Bool
  cookiesOk : Bool
  domOk : Bool
  screenshotOk : Bool

/-- Result of dumpBuffersToFiles: the artifacts attempted in order, each
with its success flag; whether an uncaught write exception aborted the
dump; the LogBuffer left behind; and the returned pre-dump stats (none when
the function threw). -/
structure DumpOutcome where
  attempts : List (ArtifactKind × Bool)
  aborted : Bool
  finalBuffer : LogBuffer
  stats : Option (Nat × Nat × Nat)
deriving Repr, DecidableEq

/-- The per-id detail-file write loop of dumpBuffersToFiles: writes files in
store order; an fs.writeFileSync exception stops the loop (and the dump). -/
def writeDetailFiles (o : WriteOracle) : List Nat → List (ArtifactKind × Bool) × Bool
  | [] => ([], true)
  | id :: rest =>
    if o.detailOk id then
      let r := writeDetailFiles o rest
      ((ArtifactKind.detailFile id, true) :: r.1, r.2)
    else ([(ArtifactKind.detailFile id, false)], false)

/-- dumpBuffersToFiles (src/logging/dump.mjs): write the console file, the
network file and every request-detail file (each an unguarded
fs.writeFileSync, so a failure propagates and aborts the rest), then invoke
the provided optional collaborators (whose own implementations catch their
errors and report them per artifact), and only then clear all buffers and
return the pre-dump stats. -/
def dumpBuffersToFiles (o : WriteOracle) (hasCookies hasDom hasShot : Bool)
    (lb : LogBuffer) : DumpOutcome :=
  let a1 := [(ArtifactKind.consoleLog, o.consoleOk)]
  if !o.consoleOk then { attempts := a1, aborted := true, finalBuffer := lb, stats := none }
  else
    let a2 := a1 ++ [(ArtifactKind.networkLog, o.networkOk)]
    if !o.networkOk then { attempts := a2, aborted := true, finalBuffer := lb, stats := none }
    else
      let dres := writeDetailFiles o (lb.requestDetails.map Prod.fst)
      let a3 := a2 ++ dres.1
      if !dres.2 then { attempts := a3, aborted := true, finalBuffer := lb, stats := none }
      else
        let a4 := a3
          ++ (cond hasCookies [(ArtifactKind.cookies, o.cookiesOk)] [])
          ++ (cond hasDom [(ArtifactKind.dom, o.domOk)] [])
          ++ (cond hasShot [(ArtifactKind.screenshot, o.screenshotOk)] [])
        { attempts := a4, aborted := false,
          finalBuffer := lb.clearAllBuffers, stats := some lb.getStats }

/-- UTF-8 byte length, the translation of Buffer.byteLength(html, utf8). -/
def utf8Len (s : String) : Nat := (s.data.map Char.utf8Size).sum

/-- DOM_DUMP_MAX_BYTES from src/logging/dump.mjs. -/
def DOM_DUMP_MAX_BYTES : Nat := 2 * 1024 * 1024

/-- The truncation marker appended by dumpDomFromPage. -/
def DOM_TRUNC_MARKER : String := "\n\n<!-- ... TRUNCATED for size ... -->\n"

/-- The content dumpDomFromPage stores: when the serialized document
exceeds DOM_DUMP_MAX_BYTES in UTF-8 bytes, the stored text is
html.slice(0, Math.floor(maxBytes / 2)) plus the marker. -/
def domDumpContent (html : String) : String :=
  if utf8Len html > DOM_DUMP_MAX_BYTES then
    jsSlice html (DOM_DUMP_MAX_BYTES / 2) ++ DOM_TRUNC_MARKER
  else html

/-! ## Failure isolation (src/monitor/page-monitoring.mjs,
isContextDestroyedError; src/monitor/shared/cleanup.mjs, createCleanup) -/

/-- isContextDestroyedError: the stale-context test, a regex alternation
over the exception message. -/
def isContextDestroyedError (msg : String) : Bool :=
  jsIncludes msg "Execution context was destroyed"
    || jsIncludes msg "Target closed"
    || jsIncludes msg "Protocol error"

/-- What the catch block of a capture handler does with an exception. -/
inductive HandlerDisposition where
  | swallowed
  | propagated
deriving Repr, DecidableEq

/-- The catch block shared by all five handlers: swallow stale-context
errors, rethrow everything else. -/
def handlerCatch (msg : String) : HandlerDisposition :=
  if isContextDestroyedError msg then HandlerDisposition.swallowed
  else HandlerDisposition.propagated

/-- Outcome of the session after an exception reaches the process level. -/
inductive SessionOutcome where
  | keepRunning
  | terminated (exitCode : Nat) (cleanupRan : Bool)
deriving Repr, DecidableEq

/-- The uncaughtException / unhandledRejection handlers installed by
createCleanup: a stale-context message is debug-traced and the session
continues; anything else runs cleanup and exits with code 1. -/
def processUncaught (msg : String) : SessionOutcome :=
  if isContextDestroyedError msg then SessionOutcome.keepRunning
  else SessionOutcome.terminated 1 true

/-- End-to-end fate of an exception raised inside a capture handler: the
handler catch first, then (when rethrown) the process-level handler. -/
def handlerExceptionOutcome (msg : String) : SessionOutcome :=
  match handlerCatch msg with
  | HandlerDisposition.swallowed => SessionOutcome.keepRunning
  | HandlerDisposition.propagated => processUncaught msg

/-! ## User page filter (src/monitor/shared/user-page-filter.mjs) -/

/-- A browser page, identified for filtering purposes by its URL. -/
structure Page where
  url : String
deriving Repr, DecidableEq

/-- The isUserPage test of filterUserPages. -/
def isUserPage (p : Page) : Bool :=
  !(jsStartsWith p.url "chrome://")
    && !(jsStartsWith p.url "devtools://")
    && !(jsStartsWith p.url "chrome-extension://")
    && !(jsStartsWith p.url "moz-extension://")
    && !(jsStartsWith p.url "extension://")
    && !(jsIncludes p.url "react-devtools" || jsIncludes p.url "redux-devtools")
    && !(jsIncludes p.url "__react_devtools__")

/-- filterUserPages: drop non-user pages, then drop about:blank pages
unless they are the only remaining pages. -/
def filterUserPages (allPages : List Page) : List Page :=
  let pages := allPages.filter isUserPage
  let nonBlank := pages.filter (fun p => p.url != "about:blank")
  if nonBlank.length > 0 then nonBlank else pages

/-! ## Open-mode connect retry loop (src/monitor/open-mode.mjs) -/

/-- One observable step of the connect loop: the fixed pre-attempt delay, a
handshake attempt (probe with its timeout plus connect), or the one-shot
diagnostics pass. -/
inductive ConnectStep where
  | delayMs (ms : Nat)
  | handshakeAttempt (n : Nat) (timeoutMs : Nat)
  | diagnostics
deriving Repr, DecidableEq

/-- The body of the for loop: at each remaining-fuel step, sleep
RETRY_DELAY (1500 ms), run one handshake attempt (fetch of /json/version
with a 3000 ms abort signal, then puppeteer.connect); on success break with
lastError null, on failure record the error and continue. -/
def connectLoopGo (succeeds : Nat → Bool) : Nat → Nat → List ConnectStep × Bool
  | 0, _ => ([], false)
  | fuel + 1, attempt =>
    let pre := [ConnectStep.delayMs 1500, ConnectStep.handshakeAttempt attempt 3000]
    if succeeds attempt then (pre, true)
    else
      let r := connectLoopGo succeeds fuel (attempt + 1)
      (pre ++ r.1, r.2)

/-- The connect sequence of runOpenMode: up to MAX_RETRIES = 5 attempts;
when lastError is still set after the loop, run the WSL diagnostics once. -/
def openModeConnect (succeeds : Nat → Bool) : List ConnectStep × Bool :=
  let r := connectLoopGo succeeds 5 1
  if r.2 then (r.1, true) else (r.1 ++ [ConnectStep.diagnostics], false)

/-- Number of handshake attempts in a trace. -/
def countAttemptSteps (tr : List ConnectStep) : Nat :=
  (tr.filter (fun s => match s with
    | ConnectStep.handshakeAttempt _ _ => true
    | _ => false)).length

/-- Number of diagnostics passes in a trace. -/
def countDiagSteps (tr : List ConnectStep) : Nat :=
  (tr.filter (fun s => match s with
    | ConnectStep.diagnostics => true
    | _ => false)).length

/-! ## Port proxy utilities (src/os/wsl/port-proxy.mjs) -/

/-- The two netsh portproxy rule types used. -/
inductive ProxyType where
  | v4tov4
  | v4tov6
deriving Repr, DecidableEq

/-- One installed forwarding rule (all rules this tool manages listen on
0.0.0.0). -/
structure ProxyRule where
  ptype : ProxyType
  listenPort : Nat
  connectAddress : String
  connectPort : Nat
deriving Repr, DecidableEq

/-- One data line of the netsh portproxy show output for a rule. -/
def ruleLine (r : ProxyRule) : String :=
  "0.0.0.0         " ++ toString r.listenPort ++ "        "
    ++ r.connectAddress ++ "       " ++ toString r.connectPort ++ "\n"

/-- The dynamic content of netsh interface portproxy show for one rule
type: the data lines of the rules of that type (the constant header text of
netsh is not modelled). -/
def showPortProxy (t : ProxyType) (rules : List ProxyRule) : String :=
  String.join ((rules.filter (fun r => r.ptype == t)).map ruleLine)

/-- A netsh portproxy delete command that was executed. -/
structure DeleteAction where
  dtype : ProxyType
  port : Nat
deriving Repr, DecidableEq

/-- netsh interface portproxy delete for one type and listen port: removes
the matching rule; exits nonzero (execSync throws) when no rule matches. -/
def netshDeleteRule (t : ProxyType) (port : Nat) (rules : List ProxyRule) :
    Option (List ProxyRule) :=
  if rules.any (fun r => r.ptype == t && r.listenPort == port) then
    some (rules.filter (fun r => !(r.ptype == t && r.listenPort == port)))
  else none

/-- Result of removePortProxyIfExists: the returned flag, the delete
commands executed, and the rules left installed. -/
structure RemoveResult where
  removed : Bool
  actions : List DeleteAction
  rules : List ProxyRule
deriving Repr, DecidableEq

/-- removePortProxyIfExists: show the v4tov4 rules and, when the output
includes the port digits, attempt the v4tov4 delete (returning true on
success, falling through on a caught failure); then the same for v4tov6;
otherwise report false. -/
def removePortProxyIfExists (port : Nat) (rules : List ProxyRule) : RemoveResult :=
  let out4 := showPortProxy ProxyType.v4tov4 rules
  let step4 : Option RemoveResult × List DeleteAction :=
    if jsIncludes out4 (toString port) then
      match netshDeleteRule ProxyType.v4tov4 port rules with
      | some rules2 =>
        (some { removed := true, actions := [⟨ProxyType.v4tov4, port⟩], rules := rules2 },
          [⟨ProxyType.v4tov4, port⟩])
      | none => (none, [⟨ProxyType.v4tov4, port⟩])
    else (none, [])
  match step4 with
  | (some res, _) => res
  | (none, acts) =>
    let out6 := showPortProxy ProxyType.v4tov6 rules
    if jsIncludes out6 (toString port) then
      match netshDeleteRule ProxyType.v4tov6 port rules with
      | some rules2 =>
        { removed := true, actions := acts ++ [⟨ProxyType.v4tov6, port⟩], rules := rules2 }
      | none =>
        { removed := false, actions := acts ++ [⟨ProxyType.v4tov6, port⟩], rules := rules }
    else { removed := false, actions := acts, rules := rules }

/-- The connect address setupPortProxy targets for each proxy type. -/
def proxyConnectAddress : ProxyType → String
  | ProxyType.v4tov6 => "::1"
  | ProxyType.v4tov4 => "127.0.0.1"

/-- The rule setupPortProxy installs for a port and type (listen on
0.0.0.0, forward to the loopback address on the same port). -/
def mkProxyRule (t : ProxyType) (port : Nat) : ProxyRule :=
  { ptype := t, listenPort := port,
    connectAddress := proxyConnectAddress t, connectPort := port }

/-- setupPortProxy: first delete any existing v4tov4 and v4tov6 rule for
the port (failures suppressed), then add the new rule of the requested type
(addOk models whether the elevated add command succeeds). -/
def setupPortProxy (port : Nat) (t : ProxyType) (addOk : Bool)
    (rules : List ProxyRule) : Bool × List ProxyRule :=
  let rules1 := rules.filter
    (fun r => !(r.ptype == ProxyType.v4tov4 && r.listenPort == port))
  let rules2 := rules1.filter
    (fun r => !(r.ptype == ProxyType.v4tov6 && r.listenPort == port))
  if addOk then (true, rules2 ++ [mkProxyRule t port])
  else (false, rules2)

/-! ## Proof-support definitions: invariants and concrete instances -/

/-- Invariant of the monitoring wrapper: every prefix of the emitted
micro-event trace has attach balance 0 or 1, and the full balance matches
whether a cleanup callback is registered. -/
def GoodState (s : SessionMonitor) : Prop :=
  (∀ pre post, pre ++ post = s.trace → attachBalance pre = 0 ∨ attachBalance pre = 1)
  ∧ attachBalance s.trace = (if s.activeCleanup.isSome then 1 else 0)

/-- Trace of a run of the connect loop in which every attempt fails. -/
def failTrace : Nat → Nat → List ConnectStep
  | _, 0 => []
  | a, fuel + 1 =>
    [ConnectStep.delayMs 1500, ConnectStep.handshakeAttempt a 3000] ++ failTrace (a + 1) fuel

/-- The scenario body from the spec. -/
def jsonScenarioBody : String := "\x7b\"k\":1\x7d"

/-- Initial monitor state for the request-correlation scenario. -/
def stW : MonitorState := ⟨⟨[], [], [], 0, []⟩, []⟩

/-- The scenario request. -/
def reqW : PMRequest := ⟨1, "https://a/x.json", "GET", "fetch", [], none⟩

/-- The scenario response: status 200, content-type application/json. -/
def respW : PMResponse :=
  ⟨some 1, "https://a/x.json", 200, "OK", [("content-type", "application/json")],
    BodyRead.ok jsonScenarioBody⟩

/-- A stored request detail used by the dump instances. -/
def detailC4 : RequestDetail := ⟨1, "t", "GET", "fetch", "u", [], none, none, none⟩

/-- A buffer with one console line, one network line and one detail. -/
def lbC4 : LogBuffer := ⟨["x"], ["y"], [(1, detailC4)], 1, []⟩

/-- An environment in which the console-file write throws. -/
def oracleBadConsole : WriteOracle := ⟨false, true, fun _ => true, true, true, true⟩

/-- An environment in which the direct writes succeed and the cookies
collaborator fails. -/
def oracleGood : WriteOracle := ⟨true, true, fun _ => true, false, true, true⟩

/-- A serialized document one byte over the DOM dump ceiling. -/
def bigHtml : String := String.mk (List.replicate (DOM_DUMP_MAX_BYTES + 1) 'a')

/-- A raw page list with one internal and one user page. -/
def pagesC7 : List Page := [⟨"chrome://x"⟩, ⟨"https://ok"⟩]

/-- An installed v4tov4 rule for port 9222. -/
def rulesC9 : List ProxyRule := [⟨ProxyType.v4tov4, 9222, "127.0.0.1", 9222⟩]

/-- A rule set with a stale v4tov6 rule on port 9222 and an unrelated rule
on port 9300, used to exercise replace-an-existing-rule installation. -/
def rulesC9stale : List ProxyRule :=
  [⟨ProxyType.v4tov6, 9222, "::1", 9222⟩, ⟨ProxyType.v4tov4, 9300, "127.0.0.1", 9300⟩]

end PuppeteerMonitor
namespace PuppeteerMonitor

/-! ## Helper lemmas -/

/-- A string built around a pattern contains it. -/
theorem substrOf_here (pre p post : String) : SubstrOf p (pre ++ p ++ post) :=
  ⟨pre, post, rfl⟩

/-- Appending strings concatenates their character data. -/
theorem string_data_append (a b : String) : (a ++ b).data = a.data ++ b.data := rfl

/-- Paused handlers are the identity on the monitor state. -/
theorem handleEvent_paused_eq (lbl : String) (ev : PageEvent) (st : MonitorState) :
    handleEvent true lbl ev st = st := by
  cases ev <;>
    simp [handleEvent, onConsole, onPageError, onRequest, onResponse, onRequestFailed]

/-- Claim C2: while the pause flag is set, every capture handler performs no
buffering and no correlation-state mutation (the state is unchanged, so
console and network buffer lengths never increase, no RequestDetail is
created or updated, and no InFlightRequest entry is added or removed);
a sequence of events delivered while paused leaves the state exactly as if
they had never happened, so later unpaused events see no retroactive
recording; and an unpaused request event is recorded immediately as one new
network line. -/
theorem C2_pause_gate :
    (∀ lbl ev st, handleEvent true lbl ev st = st)
    ∧ (∀ lbl (pausedEvs : List PageEvent) (later : List (Bool × PageEvent)) st,
        processEvents lbl (pausedEvs.map (fun e => (true, e)) ++ later) st
          = processEvents lbl later st)
    ∧ (∀ lbl ts now req st,
        (handleEvent false lbl (PageEvent.requestStarted ts now req) st).logBuffer.networkBuffer
          = st.logBuffer.networkBuffer
            ++ [networkOutboundLine ts (st.logBuffer.requestIdCounter + 1)
                  req.method req.resourceType req.url]) := by
  refine ⟨handleEvent_paused_eq, ?_, ?_⟩
  · intro lbl pausedEvs later st
    induction pausedEvs generalizing st with
    | nil => rfl
    | cons e rest ih =>
      simp only [List.map_cons, List.cons_append, processEvents, List.foldl_cons]
      rw [handleEvent_paused_eq]
      exact ih st
  · intro lbl ts now req st
    simp [handleEvent, onRequest, LogBuffer.nextRequestId, LogBuffer.saveRequestDetail,
      LogBuffer.logNetwork]

/-- Claim C10: an unpaused request-failed event appends exactly one line to
the network buffer, and appends a console failure line if and only if the
request URL does not contain the substring oauth2/sign_in. -/
theorem C10_request_failed_lines (ts1 ts2 : String) (now : Nat)
    (fr : PMFailedRequest) (st : MonitorState) :
    (∃ line, (onRequestFailed false ts1 ts2 now fr st).logBuffer.networkBuffer
        = st.logBuffer.networkBuffer ++ [line])
    ∧ (onRequestFailed false ts1 ts2 now fr st).logBuffer.consoleBuffer
        = cond (jsIncludes fr.url "oauth2/sign_in")
            st.logBuffer.consoleBuffer
            (st.logBuffer.consoleBuffer
              ++ [consoleFailedLine ts2 fr.url (jsOptText fr.errorText)]) := by
  unfold onRequestFailed
  cases h : List.lookup fr.rid st.requestData <;>
    cases hi : jsIncludes fr.url "oauth2/sign_in" <;>
      simp [h, hi, LogBuffer.logNetwork, LogBuffer.logConsole, LogBuffer.updateDetailFailed]

/-- Claim C6: an exception raised inside a capture handler whose message
matches a stale-context pattern (execution context destroyed, target
closed, protocol error) is swallowed and the session keeps running; any
other handler exception reaches the process-level handler, which runs the
full cleanup and exits with the non-zero code 1. -/
theorem C6_stale_context_isolation (msg : String) :
    (isContextDestroyedError msg = true →
      handlerExceptionOutcome msg = SessionOutcome.keepRunning)
    ∧ (isContextDestroyedError msg = false →
      handlerExceptionOutcome msg = SessionOutcome.terminated 1 true)
    ∧ (∀ m, jsIncludes m "Execution context was destroyed" = true
        ∨ jsIncludes m "Target closed" = true
        ∨ jsIncludes m "Protocol error" = true →
        isContextDestroyedError m = true) := by
  refine ⟨?_, ?_, ?_⟩
  · intro h
    simp [handlerExceptionOutcome, handlerCatch, processUncaught, h]
  · intro h
    simp [handlerExceptionOutcome, handlerCatch, processUncaught, h]
  · intro m hm
    rcases hm with h | h | h <;> simp [isContextDestroyedError, h]

/-- Witness for C6: a protocol-error message keeps the session running,
while an unrelated message terminates it with exit code 1 after cleanup. -/
theorem C6_stale_context_isolation_witness :
    handlerExceptionOutcome "Protocol error (Connection closed)" = SessionOutcome.keepRunning
    ∧ handlerExceptionOutcome "boom" = SessionOutcome.terminated 1 true :=
  ⟨(C6_stale_context_isolation "Protocol error (Connection closed)").1 (by decide),
   (C6_stale_context_isolation "boom").2.1 (by decide)⟩

/-- Counterexample for C7: a non-empty raw list consisting of one
browser-internal page yields an empty tab list; the code has no raw-list
fallback for the URL-scheme filter. -/
theorem C7_user_page_filter_counterexample :
    ([⟨"chrome://settings"⟩] : List Page) ≠ []
    ∧ filterUserPages [⟨"chrome://settings"⟩] = [] := by decide

/-- Claim C7 as amended: the tab filter only returns user pages drawn from
the input, and its result is empty exactly when the URL filters leave no
page at all; the zero-result fallback exists only for the about:blank
sub-filter, so a raw list with only browser-internal pages does yield an
empty list. -/
theorem C7_user_page_filter_amended (allPages : List Page) :
    (∀ p, p ∈ filterUserPages allPages → p ∈ allPages ∧ isUserPage p = true)
    ∧ (filterUserPages allPages = [] ↔ allPages.filter isUserPage = []) := by
  constructor
  · intro p hp
    simp only [filterUserPages] at hp
    split at hp
    · have hmem := List.mem_of_mem_filter hp
      exact ⟨List.mem_of_mem_filter hmem, (List.mem_filter.mp hmem).2⟩
    · exact ⟨List.mem_of_mem_filter hp, (List.mem_filter.mp hp).2⟩
  · constructor
    · intro h
      simp only [filterUserPages] at h
      split at h
      · next hlen => rw [h] at hlen; simp at hlen
      · exact h
    · intro h
      simp [filterUserPages, h]

/-- Witness for C7: a user page returned by the filter is a member of the
raw list and passes the user-page test. -/
theorem C7_user_page_filter_amended_witness :
    (⟨"https://ok"⟩ : Page) ∈ pagesC7 ∧ isUserPage ⟨"https://ok"⟩ = true :=
  (C7_user_page_filter_amended pagesC7).1 ⟨"https://ok"⟩ (by decide)

/-- Attach balance is additive over trace concatenation. -/
theorem attachBalance_append (a b : List AttachEvent) :
    attachBalance (a ++ b) = attachBalance a + attachBalance b := by
  simp [attachBalance]

/-- A split of a trace extended by one event either splits the original
trace or takes all of it. -/
theorem split_snoc {α : Type} (pre post tr : List α) (e : α)
    (h : pre ++ post = tr ++ [e]) :
    (∃ post2, pre ++ post2 = tr) ∨ pre = tr ++ [e] := by
  rcases List.eq_nil_or_concat post with hpost | ⟨L, b, hLb⟩
  · right
    simpa [hpost] using h
  · left
    subst hLb
    have h2 : (pre ++ L) ++ [b] = tr ++ [e] := by simpa [List.append_assoc] using h
    exact ⟨L, (List.append_inj' h2 rfl).1⟩

/-- The empty wrapper state satisfies the attach invariant. -/
theorem goodState_nil : GoodState ⟨[], none⟩ := by
  constructor
  · intro pre post h
    have hpre : pre = [] := (List.append_eq_nil.mp h).1
    left
    simp [hpre, attachBalance]
  · simp [attachBalance]

/-- cleanupActivePageListeners preserves the attach invariant and leaves no
registered cleanup. -/
theorem goodState_cleanup (s : SessionMonitor) (hs : GoodState s) :
    GoodState s.cleanupActivePageListeners
      ∧ s.cleanupActivePageListeners.activeCleanup = none := by
  unfold SessionMonitor.cleanupActivePageListeners
  cases hcl : s.activeCleanup with
  | none =>
    refine ⟨hs, ?_⟩
    simp [hcl]
  | some p =>
    refine ⟨⟨?_, ?_⟩, rfl⟩
    · intro pre post h
      rcases split_snoc pre post s.trace (AttachEvent.detach p) h with ⟨post2, h2⟩ | hfull
      · exact hs.1 pre post2 h2
      · left
        rw [hfull, attachBalance_append, hs.2, hcl]
        simp [attachBalance, evDelta]
    · rw [attachBalance_append, hs.2, hcl]
      simp [attachBalance, evDelta]

/-- One wrapper operation preserves the attach invariant. -/
theorem goodState_step (s : SessionMonitor) (op : SessionOp) (hs : GoodState s) :
    GoodState (stepSession s op) := by
  cases op with
  | cleanup => exact (goodState_cleanup s hs).1
  | setup p =>
    obtain ⟨hc, hnone⟩ := goodState_cleanup s hs
    unfold stepSession SessionMonitor.setupPageMonitoring
    constructor
    · intro pre post h
      rcases split_snoc pre post s.cleanupActivePageListeners.trace
          (AttachEvent.attach p) h with ⟨post2, h2⟩ | hfull
      · exact hc.1 pre post2 h2
      · right
        rw [hfull, attachBalance_append, hc.2, hnone]
        simp [attachBalance, evDelta]
    · rw [attachBalance_append, hc.2, hnone]
      simp [attachBalance, evDelta]

/-- A whole operation sequence preserves the attach invariant. -/
theorem goodState_fold (ops : List SessionOp) (s : SessionMonitor) (hs : GoodState s) :
    GoodState (ops.foldl stepSession s) := by
  induction ops generalizing s with
  | nil => exact hs
  | cons op rest ih => exact ih _ (goodState_step s op hs)

/-- Claim C3: for any sequence of monitoring-setup and cleanup calls, every
prefix of the emitted listener micro-event trace has attach-count minus
detach-count equal to 0 or 1 — never 2, even between the detach of the
previous page and the attach of the new one, because setupPageMonitoring
always runs the previous cleanup before attaching. -/
theorem C3_single_attachment (ops : List SessionOp) (pre post : List AttachEvent)
    (h : pre ++ post = (runSessionOps ops).trace) :
    attachBalance pre = 0 ∨ attachBalance pre = 1 := by
  unfold runSessionOps at h
  exact (goodState_fold ops ⟨[], none⟩ goodState_nil).1 pre post h

/-- Witness for C3: after two setup calls the trace is detach-before-attach
and its two-event prefix has balance 0. -/
theorem C3_single_attachment_witness :
    ([AttachEvent.attach 1, AttachEvent.detach 1] : List AttachEvent) ++ [AttachEvent.attach 2]
        = (runSessionOps [SessionOp.setup 1, SessionOp.setup 2]).trace
    ∧ (attachBalance [AttachEvent.attach 1, AttachEvent.detach 1] = 0
        ∨ attachBalance [AttachEvent.attach 1, AttachEvent.detach 1] = 1) :=
  ⟨by decide,
   C3_single_attachment [SessionOp.setup 1, SessionOp.setup 2]
     [AttachEvent.attach 1, AttachEvent.detach 1] [AttachEvent.attach 2] (by decide)⟩

/-- The connect loop emits no diagnostics step. -/
theorem countDiag_go (s : Nat → Bool) (fuel a : Nat) :
    countDiagSteps (connectLoopGo s fuel a).1 = 0 := by
  induction fuel generalizing a with
  | zero => simp [connectLoopGo, countDiagSteps]
  | succ n ih =>
    by_cases h : s a = true
    · simp [connectLoopGo, h, countDiagSteps]
    · simp only [connectLoopGo, Bool.not_eq_true] at *
      rw [if_neg (by simp [h])]
      simp [countDiagSteps, List.filter_append] at ih ⊢
      exact ih (a + 1)

/-- The connect loop performs at most as many handshake attempts as it has
fuel. -/
theorem countAttempt_go (s : Nat → Bool) (fuel a : Nat) :
    countAttemptSteps (connectLoopGo s fuel a).1 ≤ fuel := by
  induction fuel generalizing a with
  | zero => simp [connectLoopGo, countAttemptSteps]
  | succ n ih =>
    by_cases h : s a = true
    · simp [connectLoopGo, h, countAttemptSteps]
    · simp only [connectLoopGo]
      rw [if_neg (by simp [h])]
      simp only [countAttemptSteps, List.filter_append, List.length_append] at ih ⊢
      have := ih (a + 1)
      simp only [countAttemptSteps] at this
      simp
      omega

/-- When every attempt in the window fails, the loop runs through all its
fuel and reports failure. -/
theorem go_all_fail (s : Nat → Bool) (fuel a : Nat)
    (h : ∀ k, a ≤ k → k < a + fuel → s k = false) :
    connectLoopGo s fuel a = (failTrace a fuel, false) := by
  induction fuel generalizing a with
  | zero => simp [connectLoopGo, failTrace]
  | succ n ih =>
    have ha : s a = false := h a (Nat.le_refl a) (by omega)
    simp only [connectLoopGo, failTrace]
    rw [if_neg (by simp [ha]), ih (a + 1) (fun k hk1 hk2 => h k (by omega) (by omega))]

/-- Claim C8: the connect loop performs at most 5 handshake attempts (each
one probe with its 3000 ms timeout, preceded by the fixed 1500 ms delay);
diagnostics run exactly once when the loop ends without a connection and
never otherwise; and when every attempt fails the full step trace is the
five delay-attempt pairs followed by the single diagnostics pass at the
very end. -/
theorem C8_connect_retry_bound (succeeds : Nat → Bool) :
    countAttemptSteps (openModeConnect succeeds).1 ≤ 5
    ∧ countDiagSteps (openModeConnect succeeds).1
        = cond (openModeConnect succeeds).2 0 1
    ∧ ((∀ k, 1 ≤ k → k ≤ 5 → succeeds k = false) →
        (openModeConnect succeeds).1
          = [ConnectStep.delayMs 1500, ConnectStep.handshakeAttempt 1 3000,
             ConnectStep.delayMs 1500, ConnectStep.handshakeAttempt 2 3000,
             ConnectStep.delayMs 1500, ConnectStep.handshakeAttempt 3 3000,
             ConnectStep.delayMs 1500, ConnectStep.handshakeAttempt 4 3000,
             ConnectStep.delayMs 1500, ConnectStep.handshakeAttempt 5 3000,
             ConnectStep.diagnostics]
          ∧ (openModeConnect succeeds).2 = false) := by
  refine ⟨?_, ?_, ?_⟩
  · unfold openModeConnect
    by_cases h : (connectLoopGo succeeds 5 1).2
    · simp only [h, if_true]
      exact countAttempt_go succeeds 5 1
    · simp only [h, if_false]
      have := countAttempt_go succeeds 5 1
      simp only [countAttemptSteps, List.filter_append] at this ⊢
      simpa using this
  · unfold openModeConnect
    by_cases h : (connectLoopGo succeeds 5 1).2
    · simp only [h, if_true]
      simpa using countDiag_go succeeds 5 1
    · simp only [h, if_false]
      have := countDiag_go succeeds 5 1
      simp only [countDiagSteps, List.filter_append, List.length_append] at this ⊢
      simp [this]
  · intro h
    have hg := go_all_fail succeeds 5 1 (fun k hk1 hk2 => h k hk1 (by omega))
    unfold openModeConnect
    rw [hg]
    exact ⟨by decide, rfl⟩

/-- Witness for C8: with an always-failing environment the connect sequence
is exactly five delayed attempts followed by one diagnostics pass. -/
theorem C8_connect_retry_bound_witness :
    (openModeConnect (fun _ => false)).1
        = [ConnectStep.delayMs 1500, ConnectStep.handshakeAttempt 1 3000,
           ConnectStep.delayMs 1500, ConnectStep.handshakeAttempt 2 3000,
           ConnectStep.delayMs 1500, ConnectStep.handshakeAttempt 3 3000,
           ConnectStep.delayMs 1500, ConnectStep.handshakeAttempt 4 3000,
           ConnectStep.delayMs 1500, ConnectStep.handshakeAttempt 5 3000,
           ConnectStep.diagnostics]
    ∧ (openModeConnect (fun _ => false)).2 = false :=
  (C8_connect_retry_bound (fun _ => false)).2.2 (fun _ _ _ => rfl)

/-- Deleting both rule types for a port leaves no rule on that port. -/
theorem doubleDelete_no_port (rules : List ProxyRule) (port : Nat) :
    (((rules.filter (fun r => !(r.ptype == ProxyType.v4tov4 && r.listenPort == port))).filter
        (fun r => !(r.ptype == ProxyType.v4tov6 && r.listenPort == port))).filter
      (fun r => r.listenPort == port)) = [] := by
  simp only [List.filter_filter]
  rw [List.filter_eq_nil_iff]
  intro r hr
  cases hpt : r.ptype <;> by_cases hl : r.listenPort = port <;> simp [hpt, hl]

/-- Counterexample for C9: with only a rule for port 9222 installed, a
removal for port 92 — a port with no rule — still executes a delete
command, because the check matches the port digits as a substring of the
netsh listing. -/
theorem C9_forwarding_rules_counterexample :
    (∀ r ∈ rulesC9, r.listenPort ≠ 92)
    ∧ (removePortProxyIfExists 92 rulesC9).actions = [⟨ProxyType.v4tov4, 92⟩]
    ∧ (removePortProxyIfExists 92 rulesC9).removed = false
    ∧ (removePortProxyIfExists 92 rulesC9).rules = rulesC9 := by decide

/-- Claim C9 as amended: installing a port proxy always — for every
pre-existing rule set, in particular one holding a stale rule on the port —
deletes both rule types for the port before adding, so afterwards the only
rule on that port is the replacement (or none when the add fails), never an
orphaned old rule beside it; and a removal for a port whose digits do not
occur in either netsh listing — in particular a second removal after the
listings no longer mention the port — executes no delete command, reports
that nothing was removed, and leaves the rules unchanged.  Because the
check is a substring match on the listing, a removal for a port with no
rule can still attempt deletions when the text of another rule contains
the digits (see the counterexample); those attempts fail, report false and
change no rule. -/
theorem C9_forwarding_rules_amended (t : ProxyType) (port : Nat) (addOk : Bool)
    (rules : List ProxyRule) :
    ((setupPortProxy port t addOk rules).2.filter (fun r => r.listenPort == port))
        = (if addOk then [mkProxyRule t port] else [])
    ∧ (jsIncludes (showPortProxy ProxyType.v4tov4 rules) (toString port) = false →
       jsIncludes (showPortProxy ProxyType.v4tov6 rules) (toString port) = false →
       removePortProxyIfExists port rules
         = { removed := false, actions := [], rules := rules }) := by
  constructor
  · simp only [setupPortProxy]
    cases addOk <;> simp [List.filter_append, mkProxyRule] <;>
      · intro a ha h1 h2
        rcases h2 with h2 | h2
        · cases hpt : a.ptype
          · exact ⟨rfl, h1⟩
          · exact absurd hpt h2
        · exact absurd h1 h2
  · intro h4 h6
    simp [removePortProxyIfExists, h4, h6]

/-- Witness for C9: installing a v4tov4 proxy for port 9222 over a rule set
that already holds a stale v4tov6 rule on that port leaves exactly the new
rule on the port (the stale rule is gone, no orphan remains); and on an
empty rule set, removal for port 9222 is a no-op reporting false. -/
theorem C9_forwarding_rules_amended_witness :
    ((setupPortProxy 9222 ProxyType.v4tov4 true rulesC9stale).2.filter
        (fun r => r.listenPort == 9222))
        = [mkProxyRule ProxyType.v4tov4 9222]
    ∧ removePortProxyIfExists 9222 ([] : List ProxyRule)
        = { removed := false, actions := [], rules := [] } := by
  have h1 := (C9_forwarding_rules_amended ProxyType.v4tov4 9222 true rulesC9stale).1
  have h2 := (C9_forwarding_rules_amended ProxyType.v4tov4 9222 true
    ([] : List ProxyRule)).2 (by decide) (by decide)
  exact ⟨by simpa using h1, h2⟩

/-- When every detail write succeeds, the detail loop writes one file per
stored id, in store order. -/
theorem writeDetailFiles_allOk (o : WriteOracle) (ids : List Nat)
    (h : ∀ id ∈ ids, o.detailOk id = true) :
    writeDetailFiles o ids = (ids.map (fun i => (ArtifactKind.detailFile i, true)), true) := by
  induction ids with
  | nil => rfl
  | cons i rest ih =>
    have hi : o.detailOk i = true := h i (by simp)
    simp [writeDetailFiles, hi, ih (fun id hid => h id (by simp [hid]))]

/-- Counterexample for C4: when the console-file write throws, the network
file and the remaining artifacts of the same dump are never attempted and
the in-memory buffers are left unchanged — the failure does abort the rest
of the dump. -/
theorem C4_dump_counterexample :
    (dumpBuffersToFiles oracleBadConsole true true true lbC4).aborted = true
    ∧ ((dumpBuffersToFiles oracleBadConsole true true true lbC4).attempts.map Prod.fst).contains
        ArtifactKind.networkLog = false
    ∧ (dumpBuffersToFiles oracleBadConsole true true true lbC4).finalBuffer = lbC4
    ∧ lbC4.consoleBuffer ≠ [] := by decide

/-- Claim C4 as amended: when the console, network and per-id detail writes
succeed, the dump attempts every artifact — including all provided optional
collaborators, whose individual failures are recorded per artifact and do
not abort the dump — and clears the buffers only at the end, returning the
pre-dump stats; but when a direct file write fails (here the console file),
the dump aborts with the remaining artifacts unattempted and the buffers
uncleared. -/
theorem C4_dump_amended (o : WriteOracle) (hasC hasD hasS : Bool) (lb : LogBuffer) :
    (o.consoleOk = true → o.networkOk = true →
      (∀ id ∈ lb.requestDetails.map Prod.fst, o.detailOk id = true) →
      (dumpBuffersToFiles o hasC hasD hasS lb).aborted = false
      ∧ (dumpBuffersToFiles o hasC hasD hasS lb).attempts
          = [(ArtifactKind.consoleLog, true), (ArtifactKind.networkLog, true)]
            ++ (lb.requestDetails.map Prod.fst).map (fun i => (ArtifactKind.detailFile i, true))
            ++ (cond hasC [(ArtifactKind.cookies, o.cookiesOk)] [])
            ++ (cond hasD [(ArtifactKind.dom, o.domOk)] [])
            ++ (cond hasS [(ArtifactKind.screenshot, o.screenshotOk)] [])
      ∧ (dumpBuffersToFiles o hasC hasD hasS lb).finalBuffer = lb.clearAllBuffers
      ∧ (dumpBuffersToFiles o hasC hasD hasS lb).stats = some lb.getStats)
    ∧ (o.consoleOk = false →
      (dumpBuffersToFiles o hasC hasD hasS lb).aborted = true
      ∧ (dumpBuffersToFiles o hasC hasD hasS lb).attempts = [(ArtifactKind.consoleLog, false)]
      ∧ (dumpBuffersToFiles o hasC hasD hasS lb).finalBuffer = lb) := by
  constructor
  · intro hc hn hd
    simp [dumpBuffersToFiles, hc, hn, writeDetailFiles_allOk o _ hd, List.append_assoc]
  · intro hc
    simp [dumpBuffersToFiles, hc]

/-- Witness for C4: a dump with all direct writes succeeding and a failing
cookies collaborator attempts every artifact, records the cookies failure,
and still clears the buffers and returns the stats. -/
theorem C4_dump_amended_witness :
    (dumpBuffersToFiles oracleGood true true true lbC4).aborted = false
    ∧ (dumpBuffersToFiles oracleGood true true true lbC4).attempts
        = [(ArtifactKind.consoleLog, true), (ArtifactKind.networkLog, true)]
          ++ (lbC4.requestDetails.map Prod.fst).map (fun i => (ArtifactKind.detailFile i, true))
          ++ (cond true [(ArtifactKind.cookies, oracleGood.cookiesOk)] [])
          ++ (cond true [(ArtifactKind.dom, oracleGood.domOk)] [])
          ++ (cond true [(ArtifactKind.screenshot, oracleGood.screenshotOk)] [])
    ∧ (dumpBuffersToFiles oracleGood true true true lbC4).finalBuffer = lbC4.clearAllBuffers
    ∧ (dumpBuffersToFiles oracleGood true true true lbC4).stats = some lbC4.getStats :=
  (C4_dump_amended oracleGood true true true lbC4).1 rfl rfl (by decide)

/-- The UTF-8 length of a string built from a character list. -/
theorem utf8Len_mk (l : List Char) : utf8Len (String.mk l) = (l.map Char.utf8Size).sum := rfl

/-- The oversized document is one byte over the ceiling. -/
theorem utf8Len_bigHtml : utf8Len bigHtml = DOM_DUMP_MAX_BYTES + 1 := by
  have h1 : Char.utf8Size 'a' = 1 := by decide
  rw [bigHtml, utf8Len_mk, List.map_replicate, h1, List.sum_replicate, smul_eq_mul, mul_one]

/-- Character count of the oversized document. -/
theorem bigHtml_length : bigHtml.length = DOM_DUMP_MAX_BYTES + 1 := by
  show (List.replicate (DOM_DUMP_MAX_BYTES + 1) 'a').length = DOM_DUMP_MAX_BYTES + 1
  exact List.length_replicate _ _

/-- String length is additive over append. -/
theorem string_length_append (a b : String) : (a ++ b).length = a.length + b.length := by
  show (a.data ++ b.data).length = a.data.length + b.data.length
  exact List.length_append _ _

/-- Length of a JS slice. -/
theorem jsSlice_length (s : String) (n : Nat) : (jsSlice s n).length = min n s.length := by
  show (s.data.take n).length = min n s.data.length
  exact List.length_take _ _

/-- Counterexample for C5: on a document one byte over the ceiling, the
stored content is not the ceiling-sized prefix plus the marker — the code
slices at half the ceiling. -/
theorem C5_dom_truncation_counterexample :
    domDumpContent bigHtml ≠ jsSlice bigHtml DOM_DUMP_MAX_BYTES ++ DOM_TRUNC_MARKER := by
  intro h
  have hgt : utf8Len bigHtml > DOM_DUMP_MAX_BYTES := by rw [utf8Len_bigHtml]; omega
  rw [domDumpContent, if_pos hgt] at h
  have hlen := congrArg String.length h
  rw [string_length_append, string_length_append, jsSlice_length, jsSlice_length,
    bigHtml_length] at hlen
  simp only [DOM_DUMP_MAX_BYTES] at hlen
  omega

/-- Claim C5 as amended: for every DOM snapshot whose serialized document
exceeds the byte ceiling, the stored content equals exactly the prefix of
floor(ceiling / 2) string units of the document text followed by the
truncation marker — never silently the full content — and its length is
that half-ceiling prefix length plus the marker length. -/
theorem C5_dom_truncation_amended (html : String)
    (h : utf8Len html > DOM_DUMP_MAX_BYTES) :
    domDumpContent html = jsSlice html (DOM_DUMP_MAX_BYTES / 2) ++ DOM_TRUNC_MARKER
    ∧ (domDumpContent html).length
        = min (DOM_DUMP_MAX_BYTES / 2) html.length + DOM_TRUNC_MARKER.length := by
  have he : domDumpContent html = jsSlice html (DOM_DUMP_MAX_BYTES / 2) ++ DOM_TRUNC_MARKER := by
    rw [domDumpContent, if_pos h]
  refine ⟨he, ?_⟩
  rw [he, string_length_append, jsSlice_length]

/-- Witness for C5: the oversized document exceeds the ceiling and its
stored content is the half-ceiling prefix plus the marker. -/
theorem C5_dom_truncation_amended_witness :
    utf8Len bigHtml > DOM_DUMP_MAX_BYTES
    ∧ domDumpContent bigHtml = jsSlice bigHtml (DOM_DUMP_MAX_BYTES / 2) ++ DOM_TRUNC_MARKER := by
  have h : utf8Len bigHtml > DOM_DUMP_MAX_BYTES := by rw [utf8Len_bigHtml]; omega
  exact ⟨h, (C5_dom_truncation_amended bigHtml h).1⟩

/-- Claim C1: a request that starts and then completes with status 200,
content-type application/json and the scenario body is stored under the
allocated id with response.status 200 and the exact body text; the start
appends exactly one outbound network line carrying the id and the
completion appends exactly one inbound network line carrying the id; and in
general a body is captured only for text-like content types, truncated at
the 100000 ceiling with the visible marker, while any other content type is
recorded as a binary placeholder instead of a body. -/
theorem C1_request_response_correlation
    (st : MonitorState) (req : PMRequest) (ts1 ts2 : String) (now1 now2 : Nat)
    (respUrl statusText : String) (respHeaders : List (String × String))
    (hct : headerGet respHeaders "content-type" = "application/json") :
    ((onResponse false ts2 now2
        ⟨some req.rid, respUrl, 200, statusText, respHeaders, BodyRead.ok jsonScenarioBody⟩
        (onRequest false ts1 now1 req st)).logBuffer.requestDetails.lookup
        (st.logBuffer.requestIdCounter + 1)
      = some { id := st.logBuffer.requestIdCounter + 1, timestamp := ts1,
               method := req.method, resourceType := req.resourceType, url := req.url,
               reqHeaders := req.headers, postData := req.postData,
               response := some { status := 200, statusText := statusText,
                                  headers := respHeaders, body := some jsonScenarioBody,
                                  duration := now2 - now1 },
               failed := none })
    ∧ (onRequest false ts1 now1 req st).logBuffer.networkBuffer
        = st.logBuffer.networkBuffer
          ++ [networkOutboundLine ts1 (st.logBuffer.requestIdCounter + 1)
                req.method req.resourceType req.url]
    ∧ SubstrOf ("--> " ++ toString (st.logBuffer.requestIdCounter + 1))
        (networkOutboundLine ts1 (st.logBuffer.requestIdCounter + 1)
          req.method req.resourceType req.url)
    ∧ (onResponse false ts2 now2
        ⟨some req.rid, respUrl, 200, statusText, respHeaders, BodyRead.ok jsonScenarioBody⟩
        (onRequest false ts1 now1 req st)).logBuffer.networkBuffer
        = st.logBuffer.networkBuffer
          ++ [networkOutboundLine ts1 (st.logBuffer.requestIdCounter + 1)
                req.method req.resourceType req.url,
              networkInboundLine ts2 (toString (st.logBuffer.requestIdCounter + 1)) 200
                respUrl (" (" ++ toString (now2 - now1) ++ "ms)")]
    ∧ SubstrOf ("<-- " ++ toString (st.logBuffer.requestIdCounter + 1))
        (networkInboundLine ts2 (toString (st.logBuffer.requestIdCounter + 1)) 200
          respUrl (" (" ++ toString (now2 - now1) ++ "ms)"))
    ∧ (∀ ct bt, isTextBasedContentType ct = false →
        responseBodyFor ct bt = "[Binary content: " ++ ct ++ "]")
    ∧ (∀ ct b, isTextBasedContentType ct = true → b.length > 100000 →
        responseBodyFor ct (BodyRead.ok b) = jsSlice b 100000 ++ "\n... [TRUNCATED]")
    ∧ (∀ ct b, isTextBasedContentType ct = true → ¬ b.length > 100000 →
        responseBodyFor ct (BodyRead.ok b) = b) := by
  have hbody : responseBodyFor "application/json" (BodyRead.ok jsonScenarioBody)
      = jsonScenarioBody := by decide
  refine ⟨?_, ?_, ?_, ?_, ?_, ?_, ?_, ?_⟩
  · simp [onRequest, onResponse, LogBuffer.nextRequestId, LogBuffer.saveRequestDetail,
      LogBuffer.updateDetailResponse, LogBuffer.logNetwork, List.lookup, hct, hbody]
  · simp [onRequest, LogBuffer.nextRequestId, LogBuffer.saveRequestDetail,
      LogBuffer.logNetwork]
  · unfold networkOutboundLine
    exact substrOf_here _ _ _
  · simp [onRequest, onResponse, LogBuffer.nextRequestId, LogBuffer.saveRequestDetail,
      LogBuffer.updateDetailResponse, LogBuffer.logNetwork, List.lookup]
  · unfold networkInboundLine
    exact substrOf_here _ _ _
  · intro ct bt h
    simp [responseBodyFor, h]
  · intro ct b h hlen
    simp [responseBodyFor, h, hlen]
  · intro ct b h hlen
    simp [responseBodyFor, h, hlen]

/-- Witness for C1: the spec scenario itself — request id 1 to
https://a/x.json completed with status 200, content-type application/json
and the scenario body — stores the detail with status 200, the exact body,
and the 10 ms duration. -/
theorem C1_request_response_correlation_witness :
    headerGet [("content-type", "application/json")] "content-type" = "application/json"
    ∧ ((onResponse false "T2" 110 respW
          (onRequest false "T1" 100 reqW stW)).logBuffer.requestDetails.lookup 1
      = some { id := 1, timestamp := "T1", method := "GET", resourceType := "fetch",
               url := "https://a/x.json", reqHeaders := [], postData := none,
               response := some { status := 200, statusText := "OK",
                                  headers := [("content-type", "application/json")],
                                  body := some jsonScenarioBody, duration := 10 },
               failed := none }) :=
  ⟨by decide,
   (C1_request_response_correlation stW reqW "T1" "T2" 100 110 "https://a/x.json" "OK"
      [("content-type", "application/json")] (by decide)).1⟩

end PuppeteerMonitor
